import Mathlib

/-!
# Verification of the multi-tenant chatbot API core

Shallow embedding of the session/message state machine implemented in
`src/index.ts`: API-key authentication middleware, session creation,
the `processChat` conversation-replay routine (title assignment, user-turn
append, transcript reconstruction, Oracle call, bot-turn append) and the
HTTP route handlers that drive it.

The Prisma store is modelled as an in-memory database value (`DB`);
every Prisma call of the source is translated to a pure function on `DB`.
Message `createdAt` timestamps are modelled by a monotonically increasing
counter, and `findMany ... orderBy createdAt asc` is an explicit sort by
that counter.  The Gemini client is modelled as an `Oracle` record of
fallible functions (`Except Unit` mirrors a thrown transport error;
`Option String` mirrors the SDK's possibly-absent `result.text`).
-/

namespace ChatbotApi

/-- A row of the `apiKey` table: `{id, key, name, active}`. -/
structure ApiKeyRec where
  id : Nat
  key : String
  name : String
  active : Bool
deriving DecidableEq

/-- A row of the `chatSession` table: `{id, title, apiKeyId, createdAt}`,
`title` nullable until assigned. -/
structure ChatSession where
  id : Nat
  title : Option String
  apiKeyId : Nat
  createdAt : Nat
deriving DecidableEq

/-- A row of the `message` table: `{id, chatSessionId, content, sender, createdAt}`.
`sender` is `"user"` or `"bot"`; `createdAt` is a creation-sequence number. -/
structure Message where
  id : Nat
  chatSessionId : Nat
  content : String
  sender : String
  createdAt : Nat
deriving DecidableEq

/-- The whole store: the three tables plus the id/timestamp counters the
model uses in place of autoincrement ids and wall-clock timestamps. -/
structure DB where
  apiKeys : List ApiKeyRec
  sessions : List ChatSession
  messages : List Message
  nextSessionId : Nat
  nextMsgId : Nat
deriving DecidableEq

/-- One entry of the transcript handed to the Gemini chat:
`{role, parts:[{text}]}` with a single text part. -/
structure ChatEntry where
  role : String
  text : String
deriving DecidableEq

/-- The Gemini client surface used by the source:
`genAI.models.generateContent` (title generation, argument is the prompt)
and `chat.sendMessage` on a chat created with a history (arguments are the
history and the current message).  `Except.error ()` models a thrown
transport/protocol error; `Except.ok txt` models a completed call whose
`result.text` is `txt` (`none` = the SDK returned no text). -/
structure Oracle where
  generateContent : String → Except Unit (Option String)
  sendMessage : List ChatEntry → String → Except Unit (Option String)

/-- The value of `req.headers` at a given header name as Express delivers
it: absent, a single string, or an array of strings. -/
inductive HeaderValue where
  | str (s : String)
  | arr (ss : List String)
deriving DecidableEq

/-- Result of the `authenticateApiKey` middleware: either a 401 with the
error message, or the authenticated key record stored in `res.locals`. -/
inductive AuthResult where
  | unauthorized (error : String)
  | ok (key : ApiKeyRec)
deriving DecidableEq

/-- Outcome of `processChat`: the saved bot message on success, or the
exception propagated when the Oracle reply call raises. -/
inductive ChatOutcome where
  | ok (m : Message)
  | oracleError
deriving DecidableEq

/-- JSON body of an HTTP response, restricted to the shapes the embedded
routes produce. -/
inductive RespBody where
  | messageBody (m : Message)
  | startBody (session : Option ChatSession) (message : Message)
  | historyBody (ms : List Message)
  | errorBody (e : String)
deriving DecidableEq

/-- An HTTP response: status code and JSON body. -/
structure HttpResponse where
  status : Nat
  body : RespBody
deriving DecidableEq

/-- `authenticateApiKey` middleware (src/index.ts:100-117): reject when the
`x-api-key` header is absent, not a single string, or empty (all falsy /
non-string cases), else look the key up and require an active record. -/
def authenticateApiKey (db : DB) (header : Option HeaderValue) : AuthResult :=
  match header with
  | none => AuthResult.unauthorized "API key is missing or invalid"
  | some (HeaderValue.arr _) => AuthResult.unauthorized "API key is missing or invalid"
  | some (HeaderValue.str k) =>
    if k == "" then AuthResult.unauthorized "API key is missing or invalid"
    else
      match db.apiKeys.find? (fun r => r.key == k) with
      | none => AuthResult.unauthorized "Unauthorized: Invalid API key"
      | some r =>
        if r.active then AuthResult.ok r
        else AuthResult.unauthorized "Unauthorized: Invalid API key"

/-- `prisma.chatSession.create({data:{apiKeyId}})`: a new session with
null title owned by the tenant. -/
def createSession (db : DB) (apiKeyId : Nat) : DB × ChatSession :=
  let s : ChatSession :=
    { id := db.nextSessionId, title := none, apiKeyId := apiKeyId,
      createdAt := db.nextSessionId }
  ({ db with sessions := db.sessions ++ [s], nextSessionId := db.nextSessionId + 1 }, s)

/-- `prisma.message.create({data:{content, sender, chatSessionId}})`: a new
immutable turn whose `createdAt` sequence number exceeds all earlier ones. -/
def createMessage (db : DB) (sid : Nat) (sender content : String) : DB × Message :=
  let m : Message :=
    { id := db.nextMsgId, chatSessionId := sid, content := content,
      sender := sender, createdAt := db.nextMsgId }
  ({ db with messages := db.messages ++ [m], nextMsgId := db.nextMsgId + 1 }, m)

/-- `prisma.chatSession.update({where:{id}, data:{title}})`. -/
def updateSessionTitle (db : DB) (sid : Nat) (t : String) : DB :=
  { db with sessions :=
      db.sessions.map (fun s => if s.id == sid then { s with title := some t } else s) }

/-- Creation-sequence order on messages (the `orderBy createdAt asc`). -/
def msgLe (a b : Message) : Prop := a.createdAt ≤ b.createdAt

instance : DecidableRel msgLe := fun a b =>
  inferInstanceAs (Decidable (a.createdAt ≤ b.createdAt))

instance : IsTotal Message msgLe := ⟨fun a b => Nat.le_total a.createdAt b.createdAt⟩

instance : IsTrans Message msgLe := ⟨fun _ _ _ => Nat.le_trans⟩

/-- `prisma.message.findMany({where:{chatSessionId}, orderBy:{createdAt:'asc'}})`. -/
def findMessagesAsc (db : DB) (sid : Nat) : List Message :=
  List.insertionSort msgLe (db.messages.filter (fun m => m.chatSessionId == sid))

/-- Sender-to-role remapping of `processChat`: `'user' → 'user'`, anything
else (i.e. `'bot'`) `→ 'model'`. -/
def roleOf (sender : String) : String := if sender == "user" then "user" else "model"

/-- `history.map(msg => ({role, parts:[{text}]}))`. -/
def transcriptOf (ms : List Message) : List ChatEntry :=
  ms.map (fun m => { role := roleOf m.sender, text := m.content })

/-- The transcript `processChat` builds from the stored history of a
session (`chatHistory` in the source). -/
def chatTranscript (db : DB) (sid : Nat) : List ChatEntry :=
  transcriptOf (findMessagesAsc db sid)

/-- The prompt string `generateSessionTitle` sends to the model. -/
def titlePrompt (message : String) : String :=
  "Generate a very short, concise title (max 5 words) for a chat session starting with this message: \"" ++
    message ++ "\". Return ONLY the title text, no quotes or explanation."

/-- `generateSessionTitle` (src/index.ts:258-272): ask the Oracle for a
title; on a thrown error, an absent `result.text`, or a
whitespace-only text, fall back to `"New Chat"`.  Total: never fails. -/
def generateSessionTitle (oracle : Oracle) (message : String) : String :=
  match oracle.generateContent (titlePrompt message) with
  | Except.error _ => "New Chat"
  | Except.ok txt =>
    match txt with
    | none => "New Chat"
    | some t => if t.trim == "" then "New Chat" else t.trim

/-- The title step at the head of `processChat` (src/index.ts:275-286):
load the session's title; when the session exists and its title is null,
generate one (best-effort) and persist it.  Touches only the session
table. -/
def maybeAssignTitle (oracle : Oracle) (db : DB) (sessionId : Nat) (message : String) : DB :=
  match db.sessions.find? (fun s => s.id == sessionId) with
  | some s =>
    match s.title with
    | none => updateSessionTitle db sessionId (generateSessionTitle oracle message)
    | some _ => db
  | none => db

/-- `processChat` (src/index.ts:274-326): title step, append the user
turn, rebuild the transcript from the full ascending history, call the
Oracle with all transcript entries except the last as history and the raw
message as the current turn, substitute `"No response text"` for a falsy
reply text, append and return the bot turn.  A thrown Oracle reply call
propagates (`ChatOutcome.oracleError`) with the user turn already
persisted. -/
def processChat (oracle : Oracle) (db : DB) (sessionId : Nat) (message : String) :
    DB × ChatOutcome :=
  let titled := maybeAssignTitle oracle db sessionId message
  let afterUser := createMessage titled sessionId "user" message
  let db1 := afterUser.1
  match oracle.sendMessage (chatTranscript db1 sessionId).dropLast message with
  | Except.error _ => (db1, ChatOutcome.oracleError)
  | Except.ok txt =>
    let botResponse :=
      match txt with
      | none => "No response text"
      | some t => if t == "" then "No response text" else t
    let afterBot := createMessage db1 sessionId "bot" botResponse
    (afterBot.1, ChatOutcome.ok afterBot.2)

/-- `POST /api/chat/message` (src/index.ts:387-411): authenticate, reject
falsy `sessionId`/`message` with 400, load the session filtered by
`(id, apiKeyId)` and answer 404 when no row matches, else run
`processChat`; a propagated exception becomes a 500. -/
def postChatMessage (oracle : Oracle) (db : DB) (header : Option HeaderValue)
    (sessionId : Option Nat) (message : Option String) : DB × HttpResponse :=
  match authenticateApiKey db header with
  | AuthResult.unauthorized e => (db, { status := 401, body := RespBody.errorBody e })
  | AuthResult.ok key =>
    match sessionId, message with
    | some sid, some msg =>
      if sid == 0 || msg == "" then
        (db, { status := 400, body := RespBody.errorBody "sessionId and message are required" })
      else
        match db.sessions.find? (fun s => s.id == sid && s.apiKeyId == key.id) with
        | none =>
          (db, { status := 404, body := RespBody.errorBody "Session not found or unauthorized" })
        | some _ =>
          match processChat oracle db sid msg with
          | (db2, ChatOutcome.ok m) =>
            (db2, { status := 200, body := RespBody.messageBody m })
          | (db2, ChatOutcome.oracleError) =>
            (db2, { status := 500,
                    body := RespBody.errorBody "Something went wrong processing the AI response" })
    | _, _ =>
      (db, { status := 400, body := RespBody.errorBody "sessionId and message are required" })

/-- `POST /api/chat/start` (src/index.ts:227-256): authenticate, reject a
falsy `message` with 400, create the session, run `processChat` on it,
re-read the session and answer 200 with `{session, message}`; a propagated
exception becomes a 500 `"Failed to create session"` (the body carries no
session id). -/
def postChatStart (oracle : Oracle) (db : DB) (header : Option HeaderValue)
    (message : Option String) : DB × HttpResponse :=
  match authenticateApiKey db header with
  | AuthResult.unauthorized e => (db, { status := 401, body := RespBody.errorBody e })
  | AuthResult.ok key =>
    match message with
    | some msg =>
      if msg == "" then
        (db, { status := 400, body := RespBody.errorBody "Initial message is required" })
      else
        let created := createSession db key.id
        match processChat oracle created.1 created.2.id msg with
        | (db2, ChatOutcome.ok botMsg) =>
          (db2, { status := 200,
                  body := RespBody.startBody
                    (db2.sessions.find? (fun s => s.id == created.2.id)) botMsg })
        | (db2, ChatOutcome.oracleError) =>
          (db2, { status := 500, body := RespBody.errorBody "Failed to create session" })
    | none =>
      (db, { status := 400, body := RespBody.errorBody "Initial message is required" })

/-- `GET /api/chat/:sessionId` (src/index.ts:501-522): authenticate, load
the session filtered by `(id, apiKeyId)` and answer 404 when no row
matches, else answer 200 with the ascending history.  Pure read: it never
changes the store. -/
def getChatHistory (db : DB) (header : Option HeaderValue) (sessionId : Nat) : HttpResponse :=
  match authenticateApiKey db header with
  | AuthResult.unauthorized e => { status := 401, body := RespBody.errorBody e }
  | AuthResult.ok key =>
    match db.sessions.find? (fun s => s.id == sessionId && s.apiKeyId == key.id) with
    | none => { status := 404, body := RespBody.errorBody "Session not found or unauthorized" }
    | some _ => { status := 200, body := RespBody.historyBody (findMessagesAsc db sessionId) }

/-! ## Basic lemmas about the store operations -/

theorem updateSessionTitle_messages (db : DB) (sid : Nat) (t : String) :
    (updateSessionTitle db sid t).messages = db.messages := rfl

theorem maybeAssignTitle_messages (oracle : Oracle) (db : DB) (sid : Nat) (msg : String) :
    (maybeAssignTitle oracle db sid msg).messages = db.messages := by
  unfold maybeAssignTitle
  split
  · split <;> rfl
  · rfl

theorem maybeAssignTitle_nextMsgId (oracle : Oracle) (db : DB) (sid : Nat) (msg : String) :
    (maybeAssignTitle oracle db sid msg).nextMsgId = db.nextMsgId := by
  unfold maybeAssignTitle
  split
  · split <;> rfl
  · rfl

theorem processChat_fst_sessions (oracle : Oracle) (db : DB) (sid : Nat) (msg : String) :
    ((processChat oracle db sid msg).1).sessions
      = (maybeAssignTitle oracle db sid msg).sessions := by
  unfold processChat
  dsimp only
  split <;> rfl

/-- The tenant-filtered session lookup of the routes finds no row when no
session with the requested id belongs to the tenant. -/
theorem find?_owned_eq_none (l : List ChatSession) (sid kid : Nat)
    (h : ∀ s ∈ l, s.id = sid → s.apiKeyId ≠ kid) :
    l.find? (fun s => s.id == sid && s.apiKeyId == kid) = none := by
  rw [List.find?_eq_none]
  intro s hs
  simp only [Bool.and_eq_true, beq_iff_eq, not_and]
  intro h1 h2
  exact h s hs h1 h2

/-! ## Concrete witnesses used to instantiate the theorems -/

/-- An Oracle whose calls all succeed with non-empty text. -/
def wOracle : Oracle :=
  { generateContent := fun _ => Except.ok (some "Title")
    sendMessage := fun _ _ => Except.ok (some "reply") }

/-- An Oracle whose reply call always raises a transport error but whose
title call succeeds. -/
def wFailOracle : Oracle :=
  { generateContent := fun _ => Except.ok (some "Title")
    sendMessage := fun _ _ => Except.error () }

/-- An Oracle whose reply call completes without usable text and whose
title call raises. -/
def wEmptyOracle : Oracle :=
  { generateContent := fun _ => Except.error ()
    sendMessage := fun _ _ => Except.ok none }

def wKey1 : ApiKeyRec := { id := 1, key := "k1", name := "T1", active := true }

def wKey2 : ApiKeyRec := { id := 2, key := "k2", name := "T2", active := true }

/-- Two tenants; the only session (id 5) belongs to tenant 2. -/
def wDbCross : DB :=
  { apiKeys := [wKey1, wKey2]
    sessions := [{ id := 5, title := some "t", apiKeyId := 2, createdAt := 5 }]
    messages := []
    nextSessionId := 6
    nextMsgId := 1 }

/-! ## Claims -/

/-- **C1** — For every tenant T1 and every session s owned by a different
tenant (or not existing at all), an authenticated request by T1 naming s —
`POST /api/chat/message` with `sessionId = s` or `GET /api/chat/:sessionId`
— yields the single 404 `"Session not found or unauthorized"` outcome: the
lookup filtered by `(id = sessionId AND tenantId = tenant.id)` matches no
row.  The store is returned unchanged (no mutation of any other tenant's
sessions or messages) and the response is one fixed constant, so the
outcome for "does not exist" and "exists but not yours" is identical. -/
theorem crossTenant_access_fails (oracle : Oracle) (db : DB) (header : Option HeaderValue)
    (key : ApiKeyRec) (sid : Nat) (msg : String)
    (hauth : authenticateApiKey db header = AuthResult.ok key)
    (hno : ∀ s ∈ db.sessions, s.id = sid → s.apiKeyId ≠ key.id)
    (hsid : sid ≠ 0) (hmsg : msg ≠ "") :
    postChatMessage oracle db header (some sid) (some msg)
      = (db, { status := 404, body := RespBody.errorBody "Session not found or unauthorized" })
    ∧ getChatHistory db header sid
      = { status := 404, body := RespBody.errorBody "Session not found or unauthorized" } := by
  have hfind := find?_owned_eq_none db.sessions sid key.id hno
  have h1 : (sid == 0) = false := beq_eq_false_iff_ne.mpr hsid
  have h2 : (msg == "") = false := beq_eq_false_iff_ne.mpr hmsg
  constructor
  · simp only [postChatMessage, hauth, hfind, h1, h2, Bool.or_self, Bool.false_eq_true,
      if_false]
  · simp only [getChatHistory, hauth, hfind]

theorem crossTenant_access_fails_witness :
    (∀ s ∈ wDbCross.sessions, s.id = 5 → s.apiKeyId ≠ wKey1.id)
    ∧ (postChatMessage wOracle wDbCross (some (HeaderValue.str "k1")) (some 5) (some "hello")
        = (wDbCross,
            { status := 404, body := RespBody.errorBody "Session not found or unauthorized" })
      ∧ getChatHistory wDbCross (some (HeaderValue.str "k1")) 5
        = { status := 404, body := RespBody.errorBody "Session not found or unauthorized" }) :=
  ⟨by decide,
    crossTenant_access_fails wOracle wDbCross (some (HeaderValue.str "k1")) wKey1 5 "hello"
      (by decide) (by decide) (by decide) (by decide)⟩

/-- **C10** — A request whose `x-api-key` header is absent, or arrives as
an array of strings rather than a single string, is rejected by the
middleware with the 401 `"API key is missing or invalid"` answer.  The
result is the same constant for every store state (the key lookup is never
consulted), every route answers that 401 with the store unchanged, and the
route handler's own logic never contributes to the response. -/
theorem missing_or_array_key_rejected (db : DB) (oracle : Oracle) (header : Option HeaderValue)
    (h : header = none ∨ ∃ ss, header = some (HeaderValue.arr ss)) :
    authenticateApiKey db header = AuthResult.unauthorized "API key is missing or invalid"
    ∧ (∀ sid msg, postChatMessage oracle db header sid msg
        = (db, { status := 401, body := RespBody.errorBody "API key is missing or invalid" }))
    ∧ (∀ msg, postChatStart oracle db header msg
        = (db, { status := 401, body := RespBody.errorBody "API key is missing or invalid" }))
    ∧ (∀ sid, getChatHistory db header sid
        = { status := 401, body := RespBody.errorBody "API key is missing or invalid" }) := by
  have hA : authenticateApiKey db header
      = AuthResult.unauthorized "API key is missing or invalid" := by
    rcases h with h | ⟨ss, h⟩ <;> subst h <;> rfl
  refine ⟨hA, ?_, ?_, ?_⟩
  · intro sid msg
    simp only [postChatMessage, hA]
  · intro msg
    simp only [postChatStart, hA]
  · intro sid
    simp only [getChatHistory, hA]

theorem missing_or_array_key_rejected_witness :
    ((some (HeaderValue.arr ["k1", "k1"]) : Option HeaderValue) = none
      ∨ ∃ ss, (some (HeaderValue.arr ["k1", "k1"]) : Option HeaderValue)
          = some (HeaderValue.arr ss))
    ∧ postChatMessage wOracle wDbCross (some (HeaderValue.arr ["k1", "k1"])) (some 5)
        (some "hello")
      = (wDbCross, { status := 401, body := RespBody.errorBody "API key is missing or invalid" }) :=
  ⟨Or.inr ⟨["k1", "k1"], rfl⟩,
    (missing_or_array_key_rejected wDbCross wOracle (some (HeaderValue.arr ["k1", "k1"]))
      (Or.inr ⟨["k1", "k1"], rfl⟩)).2.1 (some 5) (some "hello")⟩

/-- After the title update, the session the id-lookup finds is the found
session with its title replaced. -/
theorem find?_map_title_update (l : List ChatSession) (sid : Nat) (t : String) (s : ChatSession)
    (h : l.find? (fun x => x.id == sid) = some s) :
    (l.map (fun x => if x.id == sid then { x with title := some t } else x)).find?
        (fun x => x.id == sid) = some { s with title := some t } := by
  induction l with
  | nil => simp at h
  | cons a l ih =>
    cases ha : (a.id == sid) with
    | true =>
      simp only [List.find?_cons, ha] at h
      injection h with h
      subst h
      simp only [List.map_cons, if_pos ha]
      rw [List.find?_cons]
      dsimp only
      rw [ha]
    | false =>
      simp only [List.find?_cons, ha] at h
      have ha' : ¬ ((a.id == sid) = true) := by simp [ha]
      simp only [List.map_cons, if_neg ha']
      rw [List.find?_cons]
      rw [ha]
      exact ih h

/-- When the session is found with a non-null title, the title step of
`processChat` is the identity on the store. -/
theorem maybeAssignTitle_of_titled (oracle : Oracle) (db : DB) (sid : Nat) (msg : String)
    (s : ChatSession) (hfind : db.sessions.find? (fun x => x.id == sid) = some s)
    (t : String) (htitle : s.title = some t) :
    maybeAssignTitle oracle db sid msg = db := by
  unfold maybeAssignTitle
  simp only [hfind, htitle]

/-- When the session is found with a null title, the title step persists
the generated title. -/
theorem maybeAssignTitle_of_untitled (oracle : Oracle) (db : DB) (sid : Nat) (msg : String)
    (s : ChatSession) (hfind : db.sessions.find? (fun x => x.id == sid) = some s)
    (hnone : s.title = none) :
    maybeAssignTitle oracle db sid msg
      = updateSessionTitle db sid (generateSessionTitle oracle msg) := by
  unfold maybeAssignTitle
  simp only [hfind, hnone]

/-- Db with one tenant and one untitled session. -/
def wDbUntitled : DB :=
  { apiKeys := [wKey1]
    sessions := [{ id := 1, title := none, apiKeyId := 1, createdAt := 1 }]
    messages := []
    nextSessionId := 2
    nextMsgId := 1 }

/-- **C2** — For every session, `title` transitions from null to non-null
at most once.  `processChat` sets a title iff the session's title is
currently null: when the title is already non-null the whole session table
is returned untouched (so no later turn-processing call ever changes it),
and when it is null the session comes out carrying the freshly generated
title (a non-null value). -/
theorem title_assigned_at_most_once (oracle : Oracle) (db : DB) (sid : Nat) (msg : String)
    (s : ChatSession) (hfind : db.sessions.find? (fun x => x.id == sid) = some s) :
    (s.title ≠ none → ((processChat oracle db sid msg).1).sessions = db.sessions)
    ∧ (s.title = none →
        ((processChat oracle db sid msg).1).sessions.find? (fun x => x.id == sid)
          = some { s with title := some (generateSessionTitle oracle msg) }) := by
  constructor
  · intro hsome
    rw [processChat_fst_sessions]
    cases htitle : s.title with
    | none => exact absurd htitle hsome
    | some t => rw [maybeAssignTitle_of_titled oracle db sid msg s hfind t htitle]
  · intro hnone
    rw [processChat_fst_sessions,
      maybeAssignTitle_of_untitled oracle db sid msg s hfind hnone]
    exact find?_map_title_update db.sessions sid (generateSessionTitle oracle msg) s hfind

theorem title_assigned_at_most_once_witness :
    wDbUntitled.sessions.find? (fun x => x.id == 1)
      = some { id := 1, title := none, apiKeyId := 1, createdAt := 1 }
    ∧ ((processChat wOracle wDbUntitled 1 "hi").1).sessions.find? (fun x => x.id == 1)
      = some { id := 1, title := some (generateSessionTitle wOracle "hi"), apiKeyId := 1,
               createdAt := 1 } :=
  ⟨by decide,
    (title_assigned_at_most_once wOracle wDbUntitled 1 "hi"
      { id := 1, title := none, apiKeyId := 1, createdAt := 1 } (by decide)).2 rfl⟩

theorem createMessage_fst_messages (db : DB) (sid : Nat) (sender content : String) :
    ((createMessage db sid sender content).1).messages
      = db.messages ++
          [{ id := db.nextMsgId, chatSessionId := sid, content := content,
             sender := sender, createdAt := db.nextMsgId }] := rfl

theorem createMessage_fst_nextMsgId (db : DB) (sid : Nat) (sender content : String) :
    ((createMessage db sid sender content).1).nextMsgId = db.nextMsgId + 1 := rfl

/-- When the Oracle reply call raises, `processChat` stops right after the
user-turn append and propagates the failure. -/
theorem processChat_of_sendMessage_error (oracle : Oracle) (db : DB) (sid : Nat) (msg : String)
    (hfail : ∀ ctx m, oracle.sendMessage ctx m = Except.error ()) :
    processChat oracle db sid msg
      = ((createMessage (maybeAssignTitle oracle db sid msg) sid "user" msg).1,
         ChatOutcome.oracleError) := by
  unfold processChat
  dsimp only
  rw [hfail]

/-- Db with one tenant owning one titled session and no messages yet. -/
def wDbOwned : DB :=
  { apiKeys := [wKey1]
    sessions := [{ id := 1, title := some "t", apiKeyId := 1, createdAt := 1 }]
    messages := []
    nextSessionId := 2
    nextMsgId := 1 }

/-- **C3** — When the Oracle reply call raises a transport error, exactly
one new message — the just-appended user turn — is persisted in the
session's history, no bot turn is appended, and the caller of
`POST /api/chat/message` receives the 500 server-error response. -/
theorem oracleError_keeps_user_turn (oracle : Oracle) (db : DB) (header : Option HeaderValue)
    (key : ApiKeyRec) (sid : Nat) (msg : String) (sess : ChatSession)
    (hauth : authenticateApiKey db header = AuthResult.ok key)
    (hsid : sid ≠ 0) (hmsg : msg ≠ "")
    (hsess : db.sessions.find? (fun s => s.id == sid && s.apiKeyId == key.id) = some sess)
    (hfail : ∀ ctx m, oracle.sendMessage ctx m = Except.error ()) :
    ∃ db2,
      postChatMessage oracle db header (some sid) (some msg)
        = (db2, { status := 500,
                  body := RespBody.errorBody "Something went wrong processing the AI response" })
      ∧ db2.messages = db.messages ++
          [{ id := db.nextMsgId, chatSessionId := sid, content := msg, sender := "user",
             createdAt := db.nextMsgId }] := by
  have h1 : (sid == 0) = false := beq_eq_false_iff_ne.mpr hsid
  have h2 : (msg == "") = false := beq_eq_false_iff_ne.mpr hmsg
  have hpc := processChat_of_sendMessage_error oracle db sid msg hfail
  refine ⟨(createMessage (maybeAssignTitle oracle db sid msg) sid "user" msg).1, ?_, ?_⟩
  · simp only [postChatMessage, hauth, h1, h2, Bool.or_self, Bool.false_eq_true, if_false,
      hsess, hpc]
  · rw [createMessage_fst_messages, maybeAssignTitle_messages, maybeAssignTitle_nextMsgId]

theorem oracleError_keeps_user_turn_witness :
    wDbOwned.sessions.find? (fun s => s.id == 1 && s.apiKeyId == wKey1.id)
      = some { id := 1, title := some "t", apiKeyId := 1, createdAt := 1 }
    ∧ ∃ db2,
        postChatMessage wFailOracle wDbOwned (some (HeaderValue.str "k1")) (some 1) (some "hi")
          = (db2, { status := 500,
                    body := RespBody.errorBody "Something went wrong processing the AI response" })
        ∧ db2.messages = wDbOwned.messages ++
            [{ id := 1, chatSessionId := 1, content := "hi", sender := "user", createdAt := 1 }] :=
  ⟨by decide,
    oracleError_keeps_user_turn wFailOracle wDbOwned (some (HeaderValue.str "k1")) wKey1 1 "hi"
      { id := 1, title := some "t", apiKeyId := 1, createdAt := 1 }
      (by decide) (by decide) (by decide) (by decide) (fun _ _ => rfl)⟩

/-- When the Oracle reply call completes with no usable text (`result.text`
absent or empty), `processChat` persists the placeholder bot turn and
succeeds. -/
theorem processChat_of_sendMessage_empty (oracle : Oracle) (db : DB) (sid : Nat) (msg : String)
    (hempty : ∀ ctx m, oracle.sendMessage ctx m = Except.ok none
      ∨ oracle.sendMessage ctx m = Except.ok (some "")) :
    processChat oracle db sid msg
      = ((createMessage (createMessage (maybeAssignTitle oracle db sid msg) sid "user" msg).1
            sid "bot" "No response text").1,
         ChatOutcome.ok
           (createMessage (createMessage (maybeAssignTitle oracle db sid msg) sid "user" msg).1
             sid "bot" "No response text").2) := by
  unfold processChat
  dsimp only
  rcases hempty
      (chatTranscript ((createMessage (maybeAssignTitle oracle db sid msg) sid "user" msg).1)
        sid).dropLast msg with h | h
  · rw [h]
  · rw [h]
    simp

/-- **C5** — When the user turn was committed and the Oracle reply call
succeeds but returns empty/no usable text, a bot turn containing the fixed
placeholder `"No response text"` is persisted and
`POST /api/chat/message` completes with the 200 success response
carrying that bot turn. -/
theorem emptyReply_persists_placeholder (oracle : Oracle) (db : DB) (header : Option HeaderValue)
    (key : ApiKeyRec) (sid : Nat) (msg : String) (sess : ChatSession)
    (hauth : authenticateApiKey db header = AuthResult.ok key)
    (hsid : sid ≠ 0) (hmsg : msg ≠ "")
    (hsess : db.sessions.find? (fun s => s.id == sid && s.apiKeyId == key.id) = some sess)
    (hempty : ∀ ctx m, oracle.sendMessage ctx m = Except.ok none
      ∨ oracle.sendMessage ctx m = Except.ok (some "")) :
    ∃ db2 botMsg,
      postChatMessage oracle db header (some sid) (some msg)
        = (db2, { status := 200, body := RespBody.messageBody botMsg })
      ∧ botMsg.sender = "bot" ∧ botMsg.content = "No response text"
      ∧ db2.messages = db.messages ++
          [{ id := db.nextMsgId, chatSessionId := sid, content := msg, sender := "user",
             createdAt := db.nextMsgId },
           { id := db.nextMsgId + 1, chatSessionId := sid, content := "No response text",
             sender := "bot", createdAt := db.nextMsgId + 1 }] := by
  have h1 : (sid == 0) = false := beq_eq_false_iff_ne.mpr hsid
  have h2 : (msg == "") = false := beq_eq_false_iff_ne.mpr hmsg
  have hpc := processChat_of_sendMessage_empty oracle db sid msg hempty
  refine ⟨(createMessage (createMessage (maybeAssignTitle oracle db sid msg) sid "user" msg).1
      sid "bot" "No response text").1,
    (createMessage (createMessage (maybeAssignTitle oracle db sid msg) sid "user" msg).1
      sid "bot" "No response text").2, ?_, rfl, rfl, ?_⟩
  · simp only [postChatMessage, hauth, h1, h2, Bool.or_self, Bool.false_eq_true, if_false,
      hsess, hpc]
  · rw [createMessage_fst_messages, createMessage_fst_messages, createMessage_fst_nextMsgId,
      maybeAssignTitle_messages, maybeAssignTitle_nextMsgId, List.append_assoc]
    rfl

theorem emptyReply_persists_placeholder_witness :
    wDbOwned.sessions.find? (fun s => s.id == 1 && s.apiKeyId == wKey1.id)
      = some { id := 1, title := some "t", apiKeyId := 1, createdAt := 1 }
    ∧ ∃ db2 botMsg,
        postChatMessage wEmptyOracle wDbOwned (some (HeaderValue.str "k1")) (some 1) (some "hi")
          = (db2, { status := 200, body := RespBody.messageBody botMsg })
        ∧ botMsg.sender = "bot" ∧ botMsg.content = "No response text"
        ∧ db2.messages = wDbOwned.messages ++
            [{ id := 1, chatSessionId := 1, content := "hi", sender := "user", createdAt := 1 },
             { id := 2, chatSessionId := 1, content := "No response text", sender := "bot",
               createdAt := 2 }] :=
  ⟨by decide,
    emptyReply_persists_placeholder wEmptyOracle wDbOwned (some (HeaderValue.str "k1")) wKey1
      1 "hi" { id := 1, title := some "t", apiKeyId := 1, createdAt := 1 }
      (by decide) (by decide) (by decide) (by decide) (fun _ _ => Or.inl rfl)⟩

/-- `processChat` is a function of the store produced by the title step:
two invocations whose title steps agree proceed identically. -/
theorem processChat_congr_title (oracle : Oracle) (dbA dbB : DB) (sid : Nat) (msg : String)
    (h : maybeAssignTitle oracle dbA sid msg = maybeAssignTitle oracle dbB sid msg) :
    processChat oracle dbA sid msg = processChat oracle dbB sid msg := by
  unfold processChat
  rw [h]

/-- **C6** — On the first turn of an untitled session, if the Oracle's
title-generation call fails (raises, returns no text, or returns
whitespace-only text), the session's title is set to the fixed default
`"New Chat"`, and turn processing proceeds exactly as it would had the
title already been assigned — the titling failure is never surfaced as an
error to the caller. -/
theorem titling_failure_falls_back (oracle : Oracle) (db : DB) (sid : Nat) (msg : String)
    (s : ChatSession)
    (hfind : db.sessions.find? (fun x => x.id == sid) = some s)
    (hnone : s.title = none)
    (htfail : oracle.generateContent (titlePrompt msg) = Except.error ()
      ∨ oracle.generateContent (titlePrompt msg) = Except.ok none
      ∨ ∃ t, oracle.generateContent (titlePrompt msg) = Except.ok (some t) ∧ t.trim = "") :
    generateSessionTitle oracle msg = "New Chat"
    ∧ ((processChat oracle db sid msg).1).sessions.find? (fun x => x.id == sid)
        = some { s with title := some "New Chat" }
    ∧ processChat oracle db sid msg
        = processChat oracle (updateSessionTitle db sid "New Chat") sid msg := by
  have htitle : generateSessionTitle oracle msg = "New Chat" := by
    unfold generateSessionTitle
    rcases htfail with h | h | ⟨t, h, htrim⟩
    · rw [h]
    · rw [h]
    · rw [h]
      simp [htrim]
  have hA : maybeAssignTitle oracle db sid msg = updateSessionTitle db sid "New Chat" := by
    rw [maybeAssignTitle_of_untitled oracle db sid msg s hfind hnone, htitle]
  have hfind' :
      (updateSessionTitle db sid "New Chat").sessions.find? (fun x => x.id == sid)
        = some { s with title := some "New Chat" } :=
    find?_map_title_update db.sessions sid "New Chat" s hfind
  have hB : maybeAssignTitle oracle (updateSessionTitle db sid "New Chat") sid msg
      = updateSessionTitle db sid "New Chat" :=
    maybeAssignTitle_of_titled oracle (updateSessionTitle db sid "New Chat") sid msg
      { s with title := some "New Chat" } hfind' "New Chat" rfl
  refine ⟨htitle, ?_, processChat_congr_title oracle db (updateSessionTitle db sid "New Chat")
    sid msg (hA.trans hB.symm)⟩
  rw [processChat_fst_sessions, hA]
  exact hfind'

theorem titling_failure_falls_back_witness :
    wDbUntitled.sessions.find? (fun x => x.id == 1)
      = some { id := 1, title := none, apiKeyId := 1, createdAt := 1 }
    ∧ generateSessionTitle wEmptyOracle "hi" = "New Chat"
    ∧ ((processChat wEmptyOracle wDbUntitled 1 "hi").1).sessions.find? (fun x => x.id == 1)
        = some { id := 1, title := some "New Chat", apiKeyId := 1, createdAt := 1 } := by
  have h := titling_failure_falls_back wEmptyOracle wDbUntitled 1 "hi"
    { id := 1, title := none, apiKeyId := 1, createdAt := 1 } (by decide) rfl (Or.inl rfl)
  exact ⟨by decide, h.1, h.2.1⟩

/-! ## Ordering lemmas for the ascending history read -/

theorem orderedInsert_append_singleton {α : Type} (r : α → α → Prop) [DecidableRel r]
    (x m : α) (l : List α) (hx : r x m) :
    List.orderedInsert r x (l ++ [m]) = List.orderedInsert r x l ++ [m] := by
  induction l with
  | nil =>
    simp only [List.nil_append, List.orderedInsert]
    rw [if_pos hx]
    rfl
  | cons b t ih =>
    simp only [List.cons_append, List.orderedInsert, List.append_eq]
    by_cases hb : r x b
    · rw [if_pos hb, if_pos hb]
      rfl
    · rw [if_neg hb, if_neg hb, ih]
      rfl

theorem insertionSort_append_max {α : Type} (r : α → α → Prop) [DecidableRel r]
    (l : List α) (m : α) (hmax : ∀ x ∈ l, r x m) :
    List.insertionSort r (l ++ [m]) = List.insertionSort r l ++ [m] := by
  induction l with
  | nil => rfl
  | cons b t ih =>
    simp only [List.cons_append, List.insertionSort, List.append_eq]
    rw [ih (fun x hx => hmax x (List.mem_cons_of_mem b hx)),
      orderedInsert_append_singleton r b m _ (hmax b (List.mem_cons_self b t))]

/-- Appending a turn whose creation sequence dominates the session's
existing turns extends the ascending history at its end. -/
theorem findMessagesAsc_snoc (dbA dbB : DB) (sid : Nat) (m : Message)
    (hdb : dbB.messages = dbA.messages ++ [m])
    (hm : (m.chatSessionId == sid) = true)
    (hmax : ∀ x ∈ dbA.messages.filter (fun x => x.chatSessionId == sid), msgLe x m) :
    findMessagesAsc dbB sid = findMessagesAsc dbA sid ++ [m] := by
  unfold findMessagesAsc
  rw [hdb, List.filter_append]
  have hfm : List.filter (fun x => x.chatSessionId == sid) [m] = [m] := by
    simp [hm]
  rw [hfm]
  exact insertionSort_append_max msgLe _ m hmax

theorem findMessagesAsc_filter_nil (db : DB) (sid : Nat)
    (h : db.messages.filter (fun m => m.chatSessionId == sid) = []) :
    findMessagesAsc db sid = [] := by
  unfold findMessagesAsc
  rw [h]
  rfl

/-- Tenant 1 owns session 1, which already holds one user/bot exchange. -/
def wDbHist : DB :=
  { apiKeys := [wKey1]
    sessions := [{ id := 1, title := some "t", apiKeyId := 1, createdAt := 1 }]
    messages := [{ id := 1, chatSessionId := 1, content := "A", sender := "user", createdAt := 1 },
                 { id := 2, chatSessionId := 1, content := "r1", sender := "bot", createdAt := 2 }]
    nextSessionId := 2
    nextMsgId := 3 }

/-- **C4** — The transcript `processChat` hands to the Oracle is the full
ascending history mapped through `user ↦ user`, `bot ↦ model` in order
(definition of `chatTranscript`); after the user-turn append it equals the
prior history's transcript followed by exactly one entry carrying the
current user text, and the prior-context slice `dropLast` passed to the
Oracle is exactly the prior history's transcript — so the Oracle call sees
exactly one copy of the current user text (the `sendMessage` argument),
not zero and not two. -/
theorem transcript_single_current_copy (oracle : Oracle) (db : DB) (sid : Nat) (msg : String)
    (hinv : ∀ m ∈ db.messages, m.createdAt < db.nextMsgId) :
    chatTranscript ((createMessage (maybeAssignTitle oracle db sid msg) sid "user" msg).1) sid
      = chatTranscript db sid ++ [{ role := "user", text := msg }]
    ∧ (chatTranscript ((createMessage (maybeAssignTitle oracle db sid msg) sid "user" msg).1)
          sid).dropLast
      = chatTranscript db sid := by
  have hdb : ((createMessage (maybeAssignTitle oracle db sid msg) sid "user" msg).1).messages
      = db.messages ++
        [{ id := db.nextMsgId, chatSessionId := sid, content := msg, sender := "user",
           createdAt := db.nextMsgId }] := by
    rw [createMessage_fst_messages, maybeAssignTitle_messages, maybeAssignTitle_nextMsgId]
  have hsnoc := findMessagesAsc_snoc db
    ((createMessage (maybeAssignTitle oracle db sid msg) sid "user" msg).1) sid
    { id := db.nextMsgId, chatSessionId := sid, content := msg, sender := "user",
      createdAt := db.nextMsgId }
    hdb (by simp)
    (fun x hx => Nat.le_of_lt (hinv x (List.mem_of_mem_filter hx)))
  constructor
  · unfold chatTranscript transcriptOf
    rw [hsnoc, List.map_append]
    rfl
  · unfold chatTranscript transcriptOf
    rw [hsnoc, List.map_append]
    simp only [List.map_cons, List.map_nil]
    exact List.dropLast_concat

theorem transcript_single_current_copy_witness :
    (∀ m ∈ wDbHist.messages, m.createdAt < wDbHist.nextMsgId)
    ∧ chatTranscript ((createMessage (maybeAssignTitle wOracle wDbHist 1 "B") 1 "user" "B").1) 1
        = chatTranscript wDbHist 1 ++ [{ role := "user", text := "B" }] :=
  ⟨by decide, (transcript_single_current_copy wOracle wDbHist 1 "B" (by decide)).1⟩

/-- **C7** — `history(sessionId)` (the `findMany … orderBy createdAt asc`
read used by `GET /api/chat/:sessionId` and by `processChat`) is sorted
non-decreasingly by creation sequence, contains exactly the session's
stored turns, and is a pure function of the message table, so reads with
no intervening appends return identical sequences; appending a user turn
then a bot turn to a session with no prior turns and reading the history
yields exactly those two turns in that order, senders `user` then `bot`. -/
theorem history_ascending_roundtrip :
    (∀ (db : DB) (sid : Nat), List.Sorted msgLe (findMessagesAsc db sid))
    ∧ (∀ (db : DB) (sid : Nat),
        (findMessagesAsc db sid).Perm
          (db.messages.filter (fun m => m.chatSessionId == sid)))
    ∧ (∀ (dbA dbB : DB) (sid : Nat), dbA.messages = dbB.messages →
        findMessagesAsc dbA sid = findMessagesAsc dbB sid)
    ∧ (∀ (db : DB) (sid : Nat) (u b : String),
        db.messages.filter (fun m => m.chatSessionId == sid) = [] →
        findMessagesAsc ((createMessage ((createMessage db sid "user" u).1) sid "bot" b).1) sid
          = [{ id := db.nextMsgId, chatSessionId := sid, content := u, sender := "user",
               createdAt := db.nextMsgId },
             { id := db.nextMsgId + 1, chatSessionId := sid, content := b, sender := "bot",
               createdAt := db.nextMsgId + 1 }]) := by
  refine ⟨fun db sid => List.sorted_insertionSort msgLe _,
    fun db sid => List.perm_insertionSort msgLe _,
    fun dbA dbB sid h => by unfold findMessagesAsc; rw [h],
    fun db sid u b hempty => ?_⟩
  have hu : ((createMessage db sid "user" u).1).messages.filter
      (fun m => m.chatSessionId == sid)
      = [{ id := db.nextMsgId, chatSessionId := sid, content := u, sender := "user",
           createdAt := db.nextMsgId }] := by
    rw [createMessage_fst_messages, List.filter_append, hempty]
    simp
  have h1 := findMessagesAsc_snoc db ((createMessage db sid "user" u).1) sid
    { id := db.nextMsgId, chatSessionId := sid, content := u, sender := "user",
      createdAt := db.nextMsgId }
    (createMessage_fst_messages db sid "user" u) (by simp)
    (fun x hx => by rw [hempty] at hx; exact absurd hx (List.not_mem_nil x))
  have h2 := findMessagesAsc_snoc ((createMessage db sid "user" u).1)
    ((createMessage ((createMessage db sid "user" u).1) sid "bot" b).1) sid
    { id := db.nextMsgId + 1, chatSessionId := sid, content := b, sender := "bot",
      createdAt := db.nextMsgId + 1 }
    (by rw [createMessage_fst_messages, createMessage_fst_nextMsgId]) (by simp)
    (fun x hx => by
      rw [hu] at hx
      rw [List.mem_singleton.mp hx]
      exact Nat.le_succ db.nextMsgId)
  rw [h2, h1, findMessagesAsc_filter_nil db sid hempty]
  rfl

theorem history_ascending_roundtrip_witness :
    (wDbOwned.messages.filter (fun m => m.chatSessionId == 1) = [])
    ∧ findMessagesAsc
        ((createMessage ((createMessage wDbOwned 1 "user" "A").1) 1 "bot" "r1").1) 1
      = [{ id := 1, chatSessionId := 1, content := "A", sender := "user", createdAt := 1 },
         { id := 2, chatSessionId := 1, content := "r1", sender := "bot", createdAt := 2 }] :=
  ⟨by decide, history_ascending_roundtrip.2.2.2 wDbOwned 1 "A" "r1" (by decide)⟩

/-- **C8** — For an authenticated request, a falsy `sessionId` or falsy
`message` on `POST /api/chat/message`, and a falsy (missing or empty)
`message` on `POST /api/chat/start`, make the route handler answer the
400 validation error at once: the store is returned unchanged and the
response is a fixed constant produced before the handler touches the
session or message tables.  (The tenant's key row was already read by the
authentication middleware, which runs before the handler.) -/
theorem validation_rejected_before_store (oracle : Oracle) (db : DB)
    (header : Option HeaderValue) (key : ApiKeyRec)
    (hauth : authenticateApiKey db header = AuthResult.ok key) :
    (∀ (sessionId : Option Nat) (message : Option String),
      (sessionId = none ∨ sessionId = some 0 ∨ message = none ∨ message = some "") →
      postChatMessage oracle db header sessionId message
        = (db, { status := 400,
                 body := RespBody.errorBody "sessionId and message are required" }))
    ∧ (∀ (message : Option String), (message = none ∨ message = some "") →
      postChatStart oracle db header message
        = (db, { status := 400, body := RespBody.errorBody "Initial message is required" })) := by
  constructor
  · rintro sessionId message (rfl | rfl | rfl | rfl)
    · cases message <;> simp [postChatMessage, hauth]
    · cases message <;> simp [postChatMessage, hauth]
    · cases sessionId <;> simp [postChatMessage, hauth]
    · cases sessionId <;> simp [postChatMessage, hauth]
  · rintro message (rfl | rfl) <;> simp [postChatStart, hauth]

theorem validation_rejected_before_store_witness :
    authenticateApiKey wDbOwned (some (HeaderValue.str "k1")) = AuthResult.ok wKey1
    ∧ postChatMessage wOracle wDbOwned (some (HeaderValue.str "k1")) (some 1) (some "")
        = (wDbOwned,
           { status := 400, body := RespBody.errorBody "sessionId and message are required" })
    ∧ postChatStart wOracle wDbOwned (some (HeaderValue.str "k1")) none
        = (wDbOwned,
           { status := 400, body := RespBody.errorBody "Initial message is required" }) := by
  have h := validation_rejected_before_store wOracle wDbOwned (some (HeaderValue.str "k1"))
    wKey1 (by decide)
  exact ⟨by decide, h.1 (some 1) (some "") (Or.inr (Or.inr (Or.inr rfl))), h.2 none (Or.inl rfl)⟩

/-! ## Lemmas for session creation on the start route -/

theorem createMessage_fst_sessions (db : DB) (sid : Nat) (sender content : String) :
    ((createMessage db sid sender content).1).sessions = db.sessions := rfl

theorem find?_append_of_none {α : Type} (p : α → Bool) (l₁ l₂ : List α)
    (h : l₁.find? p = none) : (l₁ ++ l₂).find? p = l₂.find? p := by
  rw [List.find?_append, h]
  rfl

theorem map_title_update_of_not_mem (l : List ChatSession) (sid : Nat) (t : String)
    (h : ∀ s ∈ l, s.id ≠ sid) :
    l.map (fun s => if s.id == sid then { s with title := some t } else s) = l := by
  induction l with
  | nil => rfl
  | cons a l ih =>
    have ha : ¬ ((a.id == sid) = true) := by
      simp only [beq_iff_eq]
      exact h a (List.mem_cons_self a l)
    simp only [List.map_cons, if_neg ha]
    rw [ih (fun s hs => h s (List.mem_cons_of_mem a hs))]

theorem map_title_update_snoc (l : List ChatSession) (newS : ChatSession) (t : String)
    (hfresh : ∀ s ∈ l, s.id ≠ newS.id) :
    (l ++ [newS]).map (fun s => if s.id == newS.id then { s with title := some t } else s)
      = l ++ [{ newS with title := some t }] := by
  rw [List.map_append, map_title_update_of_not_mem l newS.id t hfresh]
  simp only [List.map_cons, List.map_nil]
  have hself : (newS.id == newS.id) = true := beq_self_eq_true newS.id
  rw [if_pos hself]

/-- **C9** — On `POST /api/chat/start` the session row is created before
turn processing runs; when the Oracle reply call then raises, the caller
receives only the constant 500 `"Failed to create session"` body (which
carries no session id), while the created session — now carrying its
assigned title — and the already-appended user turn remain persisted in
the store. -/
theorem start_failure_keeps_session (oracle : Oracle) (db : DB) (header : Option HeaderValue)
    (key : ApiKeyRec) (msg : String)
    (hauth : authenticateApiKey db header = AuthResult.ok key)
    (hmsg : msg ≠ "")
    (hfresh : ∀ s ∈ db.sessions, s.id ≠ db.nextSessionId)
    (hfail : ∀ ctx m, oracle.sendMessage ctx m = Except.error ()) :
    ∃ db2,
      postChatStart oracle db header (some msg)
        = (db2, { status := 500, body := RespBody.errorBody "Failed to create session" })
      ∧ db2.sessions = db.sessions ++
          [{ id := db.nextSessionId, title := some (generateSessionTitle oracle msg),
             apiKeyId := key.id, createdAt := db.nextSessionId }]
      ∧ db2.messages = db.messages ++
          [{ id := db.nextMsgId, chatSessionId := db.nextSessionId, content := msg,
             sender := "user", createdAt := db.nextMsgId }] := by
  have h2 : (msg == "") = false := beq_eq_false_iff_ne.mpr hmsg
  have hfind1 : ((createSession db key.id).1).sessions.find?
      (fun x => x.id == (createSession db key.id).2.id) = some (createSession db key.id).2 := by
    show (db.sessions ++ [(createSession db key.id).2]).find? _ = _
    rw [find?_append_of_none _ db.sessions _ ?hnone]
    case hnone =>
      rw [List.find?_eq_none]
      intro s hs
      simp only [beq_iff_eq]
      exact hfresh s hs
    exact List.find?_cons_of_pos _ (by simp)
  have hmAT : maybeAssignTitle oracle (createSession db key.id).1
        (createSession db key.id).2.id msg
      = updateSessionTitle (createSession db key.id).1 (createSession db key.id).2.id
          (generateSessionTitle oracle msg) :=
    maybeAssignTitle_of_untitled oracle (createSession db key.id).1
      (createSession db key.id).2.id msg (createSession db key.id).2 hfind1 rfl
  have hpc := processChat_of_sendMessage_error oracle (createSession db key.id).1
    (createSession db key.id).2.id msg hfail
  refine ⟨(createMessage
      (maybeAssignTitle oracle (createSession db key.id).1 (createSession db key.id).2.id msg)
      (createSession db key.id).2.id "user" msg).1, ?_, ?_, ?_⟩
  · simp only [postChatStart, hauth, h2, Bool.false_eq_true, if_false, hpc]
  · rw [createMessage_fst_sessions, hmAT]
    exact map_title_update_snoc db.sessions (createSession db key.id).2
      (generateSessionTitle oracle msg) hfresh
  · rw [createMessage_fst_messages, maybeAssignTitle_messages, maybeAssignTitle_nextMsgId]
    rfl

theorem start_failure_keeps_session_witness :
    (∀ s ∈ wDbOwned.sessions, s.id ≠ wDbOwned.nextSessionId)
    ∧ ∃ db2,
        postChatStart wFailOracle wDbOwned (some (HeaderValue.str "k1")) (some "hi")
          = (db2, { status := 500, body := RespBody.errorBody "Failed to create session" })
        ∧ db2.sessions = wDbOwned.sessions ++
            [{ id := 2, title := some (generateSessionTitle wFailOracle "hi"), apiKeyId := 1,
               createdAt := 2 }]
        ∧ db2.messages = wDbOwned.messages ++
            [{ id := 1, chatSessionId := 2, content := "hi", sender := "user", createdAt := 1 }] :=
  ⟨by decide,
    start_failure_keeps_session wFailOracle wDbOwned (some (HeaderValue.str "k1")) wKey1 "hi"
      (by decide) (by decide) (by decide) (fun _ _ => rfl)⟩

end ChatbotApi
